import Mathlib

set_option maxRecDepth 8000

namespace AEMET

/-! Shallow embedding of the AEMET3 historical aggregation pipeline.

Numeric daily values are embedded as exact rationals standing for the Python
floats; JSON null / missing observations are Option.none. The aggregator
post_process_data comes from kernel.py, the normalizer get_current_data and the
two-half-year assembly download_year_data come from kernel.py, and the
historical rebuild loop comes from download_data.py. -/

/-- Truncation toward zero on rationals. Models the C-style cast NumPy performs when a
Python float is assigned into an element of an int64 array: np.full(365, -100) and
np.full(365, 100) in post_process_data (kernel.py) create int64 arrays, so the
assignment of a float temperature into them truncates the stored value. -/
def truncQ (v : ℚ) : ℤ := if 0 ≤ v then ⌊v⌋ else ⌈v⌉

/-- One year record as stored in the historical JSON file: per-quantity daily series
where some q is a parsed numeric reading and none is an absent (null) observation. -/
structure YearRecord where
  year : ℤ
  completeYear : Bool
  leapYear : Bool
  tmax : List (Option ℚ)
  tmed : List (Option ℚ)
  tmin : List (Option ℚ)
  prec : List (Option ℚ)
deriving DecidableEq

/-- Day access reg[q][index] of post_process_data: on the claimed domain every series
has length 365 and the index ranges over 0..364, so getD never takes its default. -/
def dayVal (l : List (Option ℚ)) (i : ℕ) : Option ℚ := l.getD i none

/-- Contribution of one daily value to a running sum: the cleaning loop of
post_process_data replaces None by 0 before the array addition. -/
def valOrZero (v : Option ℚ) : ℚ := v.getD 0

/-- Divider decrement of post_process_data for one record at one day: 1 when the value
is None, else 0. -/
def noneDec (v : Option ℚ) : ℕ := if v = none then 1 else 0

/-- Update of the running maximum record at one day for one value: when the present
value exceeds the current record it is stored, truncated by the int64 array assignment;
None leaves the record unchanged. -/
def stepMax (a : ℤ) (v : Option ℚ) : ℤ :=
  match v with
  | none => a
  | some x => if (a : ℚ) < x then truncQ x else a

/-- Update of the running minimum record at one day: comparison with < against the
current record, truncating assignment, None unchanged. -/
def stepMin (a : ℤ) (v : Option ℚ) : ℤ :=
  match v with
  | none => a
  | some x => if x < (a : ℚ) then truncQ x else a

/-- The working arrays of post_process_data as functions of the day index: running sums
(np.zeros(365)), per-day dividers (np.full(365, len(historical_data))) and the integer
record arrays (np.full(365, -100) and np.full(365, 100), dtype int64). -/
structure AggState where
  tmaxSum : ℕ → ℚ
  tmedSum : ℕ → ℚ
  tminSum : ℕ → ℚ
  precSum : ℕ → ℚ
  tmaxDiv : ℕ → ℕ
  tmedDiv : ℕ → ℕ
  tminDiv : ℕ → ℕ
  precDiv : ℕ → ℕ
  tmaxRec : ℕ → ℤ
  tminRec : ℕ → ℤ

/-- One iteration of the main loop of post_process_data over one record of the history:
the cleaning pass decrements the divider of every quantity at every day holding None and
tracks the two temperature records, then the cleaned series (None replaced by 0) are
added to the running sums. -/
def stepRecord (s : AggState) (r : YearRecord) : AggState :=
  { tmaxSum := fun i => s.tmaxSum i + valOrZero (dayVal r.tmax i)
    tmedSum := fun i => s.tmedSum i + valOrZero (dayVal r.tmed i)
    tminSum := fun i => s.tminSum i + valOrZero (dayVal r.tmin i)
    precSum := fun i => s.precSum i + valOrZero (dayVal r.prec i)
    tmaxDiv := fun i => s.tmaxDiv i - noneDec (dayVal r.tmax i)
    tmedDiv := fun i => s.tmedDiv i - noneDec (dayVal r.tmed i)
    tminDiv := fun i => s.tminDiv i - noneDec (dayVal r.tmin i)
    precDiv := fun i => s.precDiv i - noneDec (dayVal r.prec i)
    tmaxRec := fun i => stepMax (s.tmaxRec i) (dayVal r.tmax i)
    tminRec := fun i => stepMin (s.tminRec i) (dayVal r.tmin i) }

/-- Initial arrays of post_process_data: zero sums, dividers filled with the number of
loaded records, record sentinels -100 and 100. -/
def initState (h : List YearRecord) : AggState :=
  { tmaxSum := fun _ => 0
    tmedSum := fun _ => 0
    tminSum := fun _ => 0
    precSum := fun _ => 0
    tmaxDiv := fun _ => h.length
    tmedDiv := fun _ => h.length
    tminDiv := fun _ => h.length
    precDiv := fun _ => h.length
    tmaxRec := fun _ => -100
    tminRec := fun _ => 100 }

/-- Output of post_process_data (the summary JSON): per-day means of the four quantities
and the integer record arrays (tolist() of the int64 arrays). -/
@[ext]
structure Summary where
  tmax : ℕ → ℚ
  tmed : ℕ → ℚ
  tmin : ℕ → ℚ
  prec : ℕ → ℚ
  recordMax : ℕ → ℤ
  recordMin : ℕ → ℤ

/-- The aggregator post_process_data of kernel.py on an already loaded history list. The
final mean division is exact rational division; where NumPy would produce a non-finite
float out of a zero divider, rational division by zero yields 0 (see claim C2). -/
def post_process_data (h : List YearRecord) : Summary :=
  let s := h.foldl stepRecord (initState h)
  { tmax := fun i => s.tmaxSum i / (s.tmaxDiv i : ℚ)
    tmed := fun i => s.tmedSum i / (s.tmedDiv i : ℚ)
    tmin := fun i => s.tminSum i / (s.tminDiv i : ℚ)
    prec := fun i => s.precSum i / (s.precDiv i : ℚ)
    recordMax := s.tmaxRec
    recordMin := s.tminRec }

/-- Values of quantity f present at day i across the history: the spec phrase "records
where value at i is present". Stated from the spec for the refinement claims C1 and C5. -/
def presentAt (f : YearRecord → List (Option ℚ)) (h : List YearRecord) (i : ℕ) : List ℚ :=
  h.filterMap (fun r => dayVal (f r) i)

/-- Mean of the present values at one day, exactly as the spec words it: sum of present
values divided by the count of records whose value at that day is present. -/
def specMean (f : YearRecord → List (Option ℚ)) (h : List YearRecord) (i : ℕ) : ℚ :=
  (presentAt f h i).sum / ((presentAt f h i).length : ℚ)

/-- All four series of a record have the canonical length 365 (the shape the claims and
post_process_data assume for a stored history record). -/
def wf365 (r : YearRecord) : Prop :=
  r.tmax.length = 365 ∧ r.tmed.length = 365 ∧ r.tmin.length = 365 ∧ r.prec.length = 365

instance (r : YearRecord) : Decidable (wf365 r) := by
  unfold wf365
  infer_instance

/-- Per-day sum that post_process_data accumulates for one quantity: None contributes 0. -/
def sumAt (f : YearRecord → List (Option ℚ)) (h : List YearRecord) (i : ℕ) : ℚ :=
  (h.map (fun r => valOrZero (dayVal (f r) i))).sum

/-- Number of records of the history holding None for quantity f at day i; the final
divider of post_process_data is the record count minus this. -/
def noneCountAt (f : YearRecord → List (Option ℚ)) (h : List YearRecord) (i : ℕ) : ℕ :=
  h.countP (fun r => (dayVal (f r) i).isNone)

/-- Python-level exceptions that are not caught by the except ValueError handlers of
get_current_data in kernel.py: attributeError stands for the AttributeError raised by
None.replace (a null field) or a missing key, typeError for subscripting or taking len
of a None API response. -/
inductive PyError where
  | attributeError
  | typeError
deriving DecidableEq

/-- One raw day entry of the AEMET daily payload. The fecha field is represented by its
parsed (month, day) pair, since the code only uses int(fecha.split(sep)[1]) and
int(fecha.split(sep)[2]); a value field is some s for a JSON string and none for JSON
null or a missing key. -/
structure RawEntry where
  month : ℕ
  day : ℕ
  tmax : Option String
  tmed : Option String
  tmin : Option String
  prec : Option String
deriving DecidableEq

/-- Numeric value of a list of digit characters, most significant first. -/
def digitsToNat (cs : List Char) : ℕ :=
  cs.foldl (fun n c => 10 * n + (c.toNat - 48)) 0

/-- Value of an unsigned decimal literal: digits with an optional single dot and
fractional digits. Returns none when the characters are not of that shape. -/
def parseUnsigned (cs : List Char) : Option ℚ :=
  let intPart := cs.takeWhile Char.isDigit
  let rest := cs.dropWhile Char.isDigit
  match rest with
  | [] => if intPart.isEmpty then none else some (digitsToNat intPart : ℚ)
  | '.' :: frac =>
    if frac.all Char.isDigit && !(intPart.isEmpty && frac.isEmpty) then
      some ((digitsToNat intPart : ℚ) + (digitsToNat frac : ℚ) / (10 : ℚ) ^ frac.length)
    else none
  | _ => none

/-- Value of a decimal literal with an optional leading minus sign. Models the Python
float() builtin on the plain decimal notation the AEMET payload uses; any other input
(empty string, "Ip", letters, a second dot, ...) is a parse failure, exactly the inputs
on which float() raises ValueError. -/
def parseDecimal (cs : List Char) : Option ℚ :=
  match cs with
  | '-' :: rest => (parseUnsigned rest).map (fun q => -q)
  | _ => parseUnsigned cs

/-- Characters of the value string after replace of the decimal comma by a dot. -/
def commaToDot (s : String) : List Char :=
  s.data.map (fun c => if c = ',' then '.' else c)

/-- Parsed daily value of one string-or-null field: null gives none, a string gives its
float value after comma replacement or none on parse failure. This is the recovery
behaviour of the bare except in download_data.py, and of get_current_data for the
string case. -/
def pyFloatOpt (v : Option String) : Option ℚ :=
  v.bind (fun s => parseDecimal (commaToDot s))

/-- One value conversion of get_current_data: float(item[q].replace(sep, dot)) inside
try/except ValueError. A parse failure of a string is caught and recorded as None, but
a null field raises AttributeError at the .replace call, which except ValueError does
not catch, so the whole call fails. -/
def parseField (v : Option String) : Except PyError (Option ℚ) :=
  match v with
  | none => Except.error PyError.attributeError
  | some s => Except.ok (parseDecimal (commaToDot s))

/-- Test of the parsed calendar date of an entry against February 29, the comparison
the accumulation loop of get_current_data performs on every entry. -/
def isFeb29 (e : RawEntry) : Bool := decide (e.month = 2 ∧ e.day = 29)

/-- Complement of the Feb 29 test: the entries that are kept. -/
def notFeb29 (e : RawEntry) : Bool := !(isFeb29 e)

/-- Number of entries of a payload whose parsed calendar date is February 29. -/
def feb29Count (l : List RawEntry) : ℕ := l.countP isFeb29

/-- The accumulation loop of get_current_data: an entry whose parsed calendar date is
February 29 is skipped entirely; otherwise the four values are parsed in the order
tmax, tmed, tmin, prec and appended to the four series. The first failing parse
(necessarily a null field, see parseField) aborts the whole loop exactly as the
uncaught Python exception would. -/
def collectSeries :
    List RawEntry →
    Except PyError (List (Option ℚ) × List (Option ℚ) × List (Option ℚ) × List (Option ℚ))
  | [] => Except.ok ([], [], [], [])
  | e :: rest =>
    if e.month = 2 ∧ e.day = 29 then collectSeries rest
    else
      match parseField e.tmax, parseField e.tmed, parseField e.tmin, parseField e.prec,
          collectSeries rest with
      | Except.ok a, Except.ok b, Except.ok c, Except.ok d, Except.ok t =>
        Except.ok (a :: t.1, b :: t.2.1, c :: t.2.2.1, d :: t.2.2.2)
      | Except.error e1, _, _, _, _ => Except.error e1
      | _, Except.error e1, _, _, _ => Except.error e1
      | _, _, Except.error e1, _, _ => Except.error e1
      | _, _, _, Except.error e1, _ => Except.error e1
      | _, _, _, _, Except.error e1 => Except.error e1

/-- The normalizer get_current_data of kernel.py, on an already fetched payload (the
URL fetch and the 1 second pacing sleep are the external collaborator boundary): the
leap flag is len == 366, the completeness flag is len >= 365, both computed on the raw
payload before the Feb 29 skip, and the four series come from the accumulation loop. -/
def get_current_data (payload : List RawEntry) (year : ℤ) : Except PyError YearRecord :=
  match collectSeries payload with
  | Except.error e1 => Except.error e1
  | Except.ok t =>
    Except.ok
      { year := year
        completeYear := decide (365 ≤ payload.length)
        leapYear := payload.length == 366
        tmax := t.1
        tmed := t.2.1
        tmin := t.2.2.1
        prec := t.2.2.2 }

/-- download_year_data of kernel.py given the two fetched half-year payloads (the URL
construction and the estado checks are the fetch boundary; a failed half returns False
upstream and is not modeled here). The first half is normalized, the second half is
normalized, and the four series of the second are concatenated onto the first, whose
metadata fields - year, completeYear, leapYear - are returned unchanged. -/
def download_year_data (half1 half2 : List RawEntry) (year : ℤ) :
    Except PyError YearRecord :=
  match get_current_data half1 year, get_current_data half2 year with
  | Except.error e1, _ => Except.error e1
  | Except.ok _, Except.error e1 => Except.error e1
  | Except.ok fp, Except.ok sp =>
    Except.ok
      { fp with
        tmax := fp.tmax ++ sp.tmax
        tmed := fp.tmed ++ sp.tmed
        tmin := fp.tmin ++ sp.tmin
        prec := fp.prec ++ sp.prec }

/-- Record shape assembled inline by the main loop of download_data.py: three
temperature series, no precipitation, no leap day removal. -/
structure DDRecord where
  year : ℤ
  completeYear : Bool
  leapYear : Bool
  tmax : List (Option ℚ)
  tmed : List (Option ℚ)
  tmin : List (Option ℚ)
deriving DecidableEq

/-- Normalization inline in the main loop of download_data.py: every entry is kept (no
date filtering), each of the three temperature values is parsed under a bare except
that records None on any failure including a null field, and the completeness flag is
the raw length check len >= 365 degraded to False by every parse failure: so it equals
len >= 365 and all values parse. -/
def dd_normalize (payload : List RawEntry) (year : ℤ) : DDRecord :=
  { year := year
    completeYear :=
      decide (365 ≤ payload.length) &&
        payload.all (fun e =>
          (pyFloatOpt e.tmax).isSome && (pyFloatOpt e.tmed).isSome &&
            (pyFloatOpt e.tmin).isSome)
    leapYear := payload.length == 366
    tmax := payload.map (fun e => pyFloatOpt e.tmax)
    tmed := payload.map (fun e => pyFloatOpt e.tmed)
    tmin := payload.map (fun e => pyFloatOpt e.tmin) }

/-- Outcome of the two fetch calls for one year in the main loop of download_data.py:
httpFail when a requests-level call returned None (the following subscript of None
raises TypeError and crashes the script), apiError when the first call answered with
estado different from 200 (the year is skipped with a message), fetched when both
calls succeeded with the given payload. -/
inductive FetchOutcome where
  | httpFail
  | apiError
  | fetched (payload : List RawEntry)
deriving DecidableEq

/-- The main loop of download_data.py over the target year range with the given fetch
outcomes, returning the data_clean list that the script then writes to the output file
unconditionally after the loop: what this returns is exactly what gets persisted. An
httpFail crashes the script before the write, so nothing at all is persisted then. -/
def dd_main_loop : List (ℤ × FetchOutcome) → Except PyError (List DDRecord)
  | [] => Except.ok []
  | (y, o) :: rest =>
    match o with
    | FetchOutcome.httpFail => Except.error PyError.typeError
    | FetchOutcome.apiError => dd_main_loop rest
    | FetchOutcome.fetched payload =>
      match dd_main_loop rest with
      | Except.error e1 => Except.error e1
      | Except.ok t => Except.ok (dd_normalize payload y :: t)

/-- Success test on an Except value, the success side of the error taxonomy. -/
def isOkE {ε α : Type} (x : Except ε α) : Bool :=
  match x with
  | Except.ok _ => true
  | Except.error _ => false

/-- Concrete stored record with every daily value absent in all four series. -/
def emptyRec : YearRecord :=
  { year := 1980
    completeYear := false
    leapYear := false
    tmax := List.replicate 365 none
    tmed := List.replicate 365 none
    tmin := List.replicate 365 none
    prec := List.replicate 365 none }

/-- Concrete stored record with TMAX present only at day index 10, value 20. -/
def day10Rec : YearRecord :=
  { year := 2020
    completeYear := false
    leapYear := false
    tmax := List.replicate 10 none ++ some 20 :: List.replicate 354 none
    tmed := List.replicate 365 none
    tmin := List.replicate 365 none
    prec := List.replicate 365 none }

/-- Concrete stored record holding non-integer temperatures at day 0: TMAX 22.7 and
TMIN -5.4, both exactly representable as rationals. -/
def truncRec : YearRecord :=
  { year := 2000
    completeYear := false
    leapYear := false
    tmax := some (227 / 10) :: List.replicate 364 none
    tmed := List.replicate 365 none
    tmin := some (-27 / 5) :: List.replicate 364 none
    prec := List.replicate 365 none }

/-- Concrete stored record with integer temperatures at day 0: TMAX 15 and TMIN 5. -/
def plainRec : YearRecord :=
  { year := 2010
    completeYear := true
    leapYear := false
    tmax := some 15 :: List.replicate 364 none
    tmed := List.replicate 365 none
    tmin := some 5 :: List.replicate 364 none
    prec := List.replicate 365 none }

/-- Raw day entry dated January 1 whose four values are empty strings: every parse
fails with ValueError and is recovered as None. -/
def blankEntry : RawEntry :=
  { month := 1, day := 1, tmax := some "", tmed := some "", tmin := some "", prec := some "" }

/-- Raw day entry whose tmax field is JSON null. -/
def nullEntry : RawEntry :=
  { month := 1, day := 1, tmax := none, tmed := some "", tmin := some "", prec := some "" }

/-- Raw entry dated February 29 carrying a TMAX reading. -/
def feb29Entry : RawEntry :=
  { month := 2, day := 29, tmax := some "10,0", tmed := some "", tmin := some "", prec := some "" }

/-- Raw entry dated March 1, the day following the leap day. -/
def mar1Entry : RawEntry :=
  { month := 3, day := 1, tmax := some "", tmed := some "", tmin := some "", prec := some "" }

/-- Non-leap raw payload: 365 day entries, none dated February 29. -/
def payload365 : List RawEntry := List.replicate 365 blankEntry

/-- Leap raw payload: 366 day entries in calendar order, the single February 29 entry
at raw position 59 and March 1 at raw position 60. -/
def payload366 : List RawEntry :=
  List.replicate 59 blankEntry ++ feb29Entry :: mar1Entry :: List.replicate 305 blankEntry

/-- Normalized record get_current_data produces from payload365. -/
def rec365 : YearRecord :=
  { year := 1970
    completeYear := true
    leapYear := false
    tmax := List.replicate 365 none
    tmed := List.replicate 365 none
    tmin := List.replicate 365 none
    prec := List.replicate 365 none }

/-- Normalized record get_current_data produces from payload366. -/
def rec366 : YearRecord :=
  { year := 1972
    completeYear := true
    leapYear := true
    tmax := List.replicate 365 none
    tmed := List.replicate 365 none
    tmin := List.replicate 365 none
    prec := List.replicate 365 none }

/-- Record download_year_data assembles from two one-entry half payloads of blank
entries. -/
def recHalf : YearRecord :=
  { year := 1999
    completeYear := false
    leapYear := false
    tmax := [none, none]
    tmed := [none, none]
    tmin := [none, none]
    prec := [none, none] }

/-- An integer below a rational is at most its truncation toward zero. -/
theorem le_truncQ_of_le (a : ℤ) (v : ℚ) (h : (a : ℚ) ≤ v) : a ≤ truncQ v := by
  unfold truncQ
  by_cases h0 : (0 : ℚ) ≤ v
  · rw [if_pos h0]
    exact Int.le_floor.mpr h
  · rw [if_neg h0]
    have hc : v ≤ (⌈v⌉ : ℚ) := Int.le_ceil v
    exact_mod_cast le_trans h hc

/-- An integer above a rational is at least its truncation toward zero. -/
theorem truncQ_le_of_le (a : ℤ) (v : ℚ) (h : v ≤ (a : ℚ)) : truncQ v ≤ a := by
  unfold truncQ
  by_cases h0 : (0 : ℚ) ≤ v
  · rw [if_pos h0]
    have hf : (⌊v⌋ : ℚ) ≤ v := Int.floor_le v
    exact_mod_cast le_trans hf h
  · rw [if_neg h0]
    exact Int.ceil_le.mpr h

/-- The conditional record update on a present value is exactly a max against the
truncated value. -/
theorem stepMax_some (a : ℤ) (x : ℚ) : stepMax a (some x) = max a (truncQ x) := by
  show (if (a : ℚ) < x then truncQ x else a) = max a (truncQ x)
  by_cases hx : (a : ℚ) < x
  · rw [if_pos hx, max_eq_right (le_truncQ_of_le a x (le_of_lt hx))]
  · rw [if_neg hx, max_eq_left (truncQ_le_of_le a x (le_of_not_lt hx))]

/-- The conditional minimum record update on a present value is exactly a min against
the truncated value. -/
theorem stepMin_some (a : ℤ) (x : ℚ) : stepMin a (some x) = min a (truncQ x) := by
  show (if x < (a : ℚ) then truncQ x else a) = min a (truncQ x)
  by_cases hx : x < (a : ℚ)
  · rw [if_pos hx, min_eq_right (truncQ_le_of_le a x (le_of_lt hx))]
  · rw [if_neg hx, min_eq_left (le_truncQ_of_le a x (le_of_not_lt hx))]

/-- Running tmax sum after folding the whole history. -/
theorem foldl_tmaxSum (h : List YearRecord) (s : AggState) (i : ℕ) :
    (h.foldl stepRecord s).tmaxSum i = s.tmaxSum i + sumAt YearRecord.tmax h i := by
  induction h generalizing s with
  | nil => simp [sumAt]
  | cons r t ih =>
    rw [List.foldl_cons, ih]
    simp [sumAt, stepRecord]
    ring

/-- Running tmed sum after folding the whole history. -/
theorem foldl_tmedSum (h : List YearRecord) (s : AggState) (i : ℕ) :
    (h.foldl stepRecord s).tmedSum i = s.tmedSum i + sumAt YearRecord.tmed h i := by
  induction h generalizing s with
  | nil => simp [sumAt]
  | cons r t ih =>
    rw [List.foldl_cons, ih]
    simp [sumAt, stepRecord]
    ring

/-- Running tmin sum after folding the whole history. -/
theorem foldl_tminSum (h : List YearRecord) (s : AggState) (i : ℕ) :
    (h.foldl stepRecord s).tminSum i = s.tminSum i + sumAt YearRecord.tmin h i := by
  induction h generalizing s with
  | nil => simp [sumAt]
  | cons r t ih =>
    rw [List.foldl_cons, ih]
    simp [sumAt, stepRecord]
    ring

/-- Running prec sum after folding the whole history. -/
theorem foldl_precSum (h : List YearRecord) (s : AggState) (i : ℕ) :
    (h.foldl stepRecord s).precSum i = s.precSum i + sumAt YearRecord.prec h i := by
  induction h generalizing s with
  | nil => simp [sumAt]
  | cons r t ih =>
    rw [List.foldl_cons, ih]
    simp [sumAt, stepRecord]
    ring

/-- Running tmax divider after folding the whole history. -/
theorem foldl_tmaxDiv (h : List YearRecord) (s : AggState) (i : ℕ) :
    (h.foldl stepRecord s).tmaxDiv i = s.tmaxDiv i - noneCountAt YearRecord.tmax h i := by
  induction h generalizing s with
  | nil => simp [noneCountAt]
  | cons r t ih =>
    rw [List.foldl_cons, ih]
    cases hv : dayVal r.tmax i <;>
      simp [noneCountAt, List.countP_cons, stepRecord, noneDec, hv] <;> omega

/-- Running tmed divider after folding the whole history. -/
theorem foldl_tmedDiv (h : List YearRecord) (s : AggState) (i : ℕ) :
    (h.foldl stepRecord s).tmedDiv i = s.tmedDiv i - noneCountAt YearRecord.tmed h i := by
  induction h generalizing s with
  | nil => simp [noneCountAt]
  | cons r t ih =>
    rw [List.foldl_cons, ih]
    cases hv : dayVal r.tmed i <;>
      simp [noneCountAt, List.countP_cons, stepRecord, noneDec, hv] <;> omega

/-- Running tmin divider after folding the whole history. -/
theorem foldl_tminDiv (h : List YearRecord) (s : AggState) (i : ℕ) :
    (h.foldl stepRecord s).tminDiv i = s.tminDiv i - noneCountAt YearRecord.tmin h i := by
  induction h generalizing s with
  | nil => simp [noneCountAt]
  | cons r t ih =>
    rw [List.foldl_cons, ih]
    cases hv : dayVal r.tmin i <;>
      simp [noneCountAt, List.countP_cons, stepRecord, noneDec, hv] <;> omega

/-- Running prec divider after folding the whole history. -/
theorem foldl_precDiv (h : List YearRecord) (s : AggState) (i : ℕ) :
    (h.foldl stepRecord s).precDiv i = s.precDiv i - noneCountAt YearRecord.prec h i := by
  induction h generalizing s with
  | nil => simp [noneCountAt]
  | cons r t ih =>
    rw [List.foldl_cons, ih]
    cases hv : dayVal r.prec i <;>
      simp [noneCountAt, List.countP_cons, stepRecord, noneDec, hv] <;> omega

/-- Running maximum record after folding the whole history: a fold of max over the
truncations of the present values. -/
theorem foldl_tmaxRec (h : List YearRecord) (s : AggState) (i : ℕ) :
    (h.foldl stepRecord s).tmaxRec i =
      ((presentAt YearRecord.tmax h i).map truncQ).foldl max (s.tmaxRec i) := by
  induction h generalizing s with
  | nil => simp [presentAt]
  | cons r t ih =>
    rw [List.foldl_cons, ih]
    cases hv : dayVal r.tmax i with
    | none => simp [presentAt, List.filterMap_cons, hv, stepRecord, stepMax]
    | some x => simp [presentAt, List.filterMap_cons, hv, stepRecord, stepMax_some]

/-- Running minimum record after folding the whole history: a fold of min over the
truncations of the present values. -/
theorem foldl_tminRec (h : List YearRecord) (s : AggState) (i : ℕ) :
    (h.foldl stepRecord s).tminRec i =
      ((presentAt YearRecord.tmin h i).map truncQ).foldl min (s.tminRec i) := by
  induction h generalizing s with
  | nil => simp [presentAt]
  | cons r t ih =>
    rw [List.foldl_cons, ih]
    cases hv : dayVal r.tmin i with
    | none => simp [presentAt, List.filterMap_cons, hv, stepRecord, stepMin]
    | some x => simp [presentAt, List.filterMap_cons, hv, stepRecord, stepMin_some]

/-- Sum of the present values equals the sum post_process_data accumulates, since the
cleaning pass replaces None by 0. -/
theorem presentAt_sum (f : YearRecord → List (Option ℚ)) (h : List YearRecord) (i : ℕ) :
    (presentAt f h i).sum = sumAt f h i := by
  induction h with
  | nil => simp [presentAt, sumAt]
  | cons r t ih =>
    cases hv : dayVal (f r) i <;>
      simp [presentAt, sumAt, List.filterMap_cons, hv, valOrZero] at ih ⊢ <;>
      rw [ih]

/-- Number of present values equals the record count minus the None count: the final
divider of post_process_data. -/
theorem presentAt_length (f : YearRecord → List (Option ℚ)) (h : List YearRecord) (i : ℕ) :
    (presentAt f h i).length = h.length - noneCountAt f h i := by
  induction h with
  | nil => simp [presentAt, noneCountAt]
  | cons r t ih =>
    have hc : noneCountAt f t i ≤ t.length := List.countP_le_length _
    cases hv : dayVal (f r) i <;>
      simp [presentAt, noneCountAt, List.filterMap_cons, hv, List.countP_cons] at ih hc ⊢ <;>
      omega

/-- Absent day of a fully absent series. -/
theorem dayVal_replicate (n i : ℕ) : dayVal (List.replicate n (none : Option ℚ)) i = none := by
  unfold dayVal
  rw [List.getD_eq_getElem?_getD, List.getElem?_replicate]
  by_cases hi : i < n <;> simp [hi]

/-- Mean entry of the summary for tmax, in closed form. -/
theorem post_tmax (h : List YearRecord) (i : ℕ) :
    (post_process_data h).tmax i =
      sumAt YearRecord.tmax h i / ((h.length - noneCountAt YearRecord.tmax h i : ℕ) : ℚ) := by
  unfold post_process_data
  simp only [foldl_tmaxSum, foldl_tmaxDiv, initState, zero_add]

/-- Mean entry of the summary for tmed, in closed form. -/
theorem post_tmed (h : List YearRecord) (i : ℕ) :
    (post_process_data h).tmed i =
      sumAt YearRecord.tmed h i / ((h.length - noneCountAt YearRecord.tmed h i : ℕ) : ℚ) := by
  unfold post_process_data
  simp only [foldl_tmedSum, foldl_tmedDiv, initState, zero_add]

/-- Mean entry of the summary for tmin, in closed form. -/
theorem post_tmin (h : List YearRecord) (i : ℕ) :
    (post_process_data h).tmin i =
      sumAt YearRecord.tmin h i / ((h.length - noneCountAt YearRecord.tmin h i : ℕ) : ℚ) := by
  unfold post_process_data
  simp only [foldl_tminSum, foldl_tminDiv, initState, zero_add]

/-- Mean entry of the summary for prec, in closed form. -/
theorem post_prec (h : List YearRecord) (i : ℕ) :
    (post_process_data h).prec i =
      sumAt YearRecord.prec h i / ((h.length - noneCountAt YearRecord.prec h i : ℕ) : ℚ) := by
  unfold post_process_data
  simp only [foldl_precSum, foldl_precDiv, initState, zero_add]

/-- Maximum record entry of the summary, in closed form: fold of max over the
truncations of the present TMAX values, from the sentinel -100. -/
theorem post_recordMax (h : List YearRecord) (i : ℕ) :
    (post_process_data h).recordMax i =
      ((presentAt YearRecord.tmax h i).map truncQ).foldl max (-100) := by
  unfold post_process_data
  simp only [foldl_tmaxRec, initState]

/-- Minimum record entry of the summary, in closed form: fold of min over the
truncations of the present TMIN values, from the sentinel 100. -/
theorem post_recordMin (h : List YearRecord) (i : ℕ) :
    (post_process_data h).recordMin i =
      ((presentAt YearRecord.tmin h i).map truncQ).foldl min 100 := by
  unfold post_process_data
  simp only [foldl_tminRec, initState]

/-- C1: for every history of 365-entry series, every day index below 365 and every
quantity, the aggregated mean equals the sum of the present values at that index
divided by the number of records whose value at that index is present, so a record
with an absent value is excluded from numerator and denominator at that index only and
the divisor varies per day. -/
theorem c1_mean_excludes_absent (h : List YearRecord) (i : ℕ) (hi : i < 365)
    (hw : ∀ r ∈ h, wf365 r) :
    (post_process_data h).tmax i = specMean YearRecord.tmax h i ∧
    (post_process_data h).tmed i = specMean YearRecord.tmed h i ∧
    (post_process_data h).tmin i = specMean YearRecord.tmin h i ∧
    (post_process_data h).prec i = specMean YearRecord.prec h i := by
  simp only [specMean, presentAt_sum, presentAt_length]
  exact ⟨post_tmax h i, post_tmed h i, post_tmin h i, post_prec h i⟩

/-- C1 witness: the spec example, two records where TMAX at day 10 is 20.0 in one and
absent in the other. -/
theorem c1_mean_excludes_absent_witness :
    (10 < 365 ∧ ∀ r ∈ [day10Rec, emptyRec], wf365 r) ∧
    ((post_process_data [day10Rec, emptyRec]).tmax 10 =
        specMean YearRecord.tmax [day10Rec, emptyRec] 10 ∧
      (post_process_data [day10Rec, emptyRec]).tmed 10 =
        specMean YearRecord.tmed [day10Rec, emptyRec] 10 ∧
      (post_process_data [day10Rec, emptyRec]).tmin 10 =
        specMean YearRecord.tmin [day10Rec, emptyRec] 10 ∧
      (post_process_data [day10Rec, emptyRec]).prec 10 =
        specMean YearRecord.prec [day10Rec, emptyRec] 10) :=
  ⟨⟨by decide, by decide⟩,
    c1_mean_excludes_absent [day10Rec, emptyRec] 10 (by decide) (by decide)⟩

/-- C2: the claim is right about the intent and the code lacks the guard. At a history
whose only record has TMAX absent at day 3 the aggregation does not fail with any
EmptyDayAggregate condition: post_process_data is a total function, the divider at that
day is 1 - 1 = 0, and the emitted mean entry is the rational division 0 / 0 = 0 (NumPy
emits the non-finite 0.0/0 instead); a summary value is produced, not an error. -/
theorem c2_empty_day_emits_value :
    noneCountAt YearRecord.tmax [emptyRec] 3 = 1 ∧
    presentAt YearRecord.tmax [emptyRec] 3 = [] ∧
    (post_process_data [emptyRec]).tmax 3 = 0 := by
  refine ⟨by decide, by decide, ?_⟩
  rw [post_tmax]
  have hd : dayVal emptyRec.tmax 3 = none := dayVal_replicate 365 3
  have hs : sumAt YearRecord.tmax [emptyRec] 3 = 0 := by
    simp [sumAt, hd, valOrZero]
  have hc : noneCountAt YearRecord.tmax [emptyRec] 3 = 1 := by decide
  rw [hs, hc]
  norm_num

/-- C5 counterexample: the claim fails on the code. The record arrays are int64 NumPy
arrays with sentinels -100 and 100, so at a history whose only record has TMAX 22.7 and
TMIN -5.4 present at day 0, the emitted recordMax is the truncated 22, not the maximum
present value 22.7, and recordMin is -5, not the minimum present value -5.4. -/
theorem c5_counterexample :
    presentAt YearRecord.tmax [truncRec] 0 = [227 / 10] ∧
    (post_process_data [truncRec]).recordMax 0 = 22 ∧
    ((post_process_data [truncRec]).recordMax 0 : ℚ) ≠ 227 / 10 ∧
    presentAt YearRecord.tmin [truncRec] 0 = [-27 / 5] ∧
    (post_process_data [truncRec]).recordMin 0 = -5 ∧
    ((post_process_data [truncRec]).recordMin 0 : ℚ) ≠ -27 / 5 := by
  have htr : truncQ (227 / 10) = 22 := by
    unfold truncQ
    rw [if_pos (by norm_num), Int.floor_eq_iff]
    norm_num
  have htr2 : truncQ (-27 / 5) = -5 := by
    unfold truncQ
    rw [if_neg (by norm_num), Int.ceil_eq_iff]
    norm_num
  have hdx : dayVal truncRec.tmax 0 = some (227 / 10) := rfl
  have hdn : dayVal truncRec.tmin 0 = some (-27 / 5) := rfl
  have hpx : presentAt YearRecord.tmax [truncRec] 0 = [227 / 10] := by
    simp [presentAt, List.filterMap_cons, hdx]
  have hpn : presentAt YearRecord.tmin [truncRec] 0 = [-27 / 5] := by
    simp [presentAt, List.filterMap_cons, hdn]
  have hmax : (post_process_data [truncRec]).recordMax 0 = 22 := by
    rw [post_recordMax, hpx]
    simp only [List.map_cons, List.map_nil, htr]
    decide
  have hmin : (post_process_data [truncRec]).recordMin 0 = -5 := by
    rw [post_recordMin, hpn]
    simp only [List.map_cons, List.map_nil, htr2]
    decide
  refine ⟨hpx, hmax, ?_, hpn, hmin, ?_⟩
  · rw [hmax]; norm_num
  · rw [hmin]; norm_num

/-- C5 as amended: recordMax at a day is the maximum of the sentinel -100 and the
truncations toward zero of the present TMAX values at that day (the int64 array
assignment truncates and the sentinel is finite, so it is emitted whenever no present
value truncates above it); recordMin dually with sentinel 100 and minimum. -/
theorem c5_records_truncated (h : List YearRecord) (i : ℕ) (hi : i < 365)
    (hw : ∀ r ∈ h, wf365 r) :
    (post_process_data h).recordMax i =
      ((presentAt YearRecord.tmax h i).map truncQ).foldl max (-100) ∧
    (post_process_data h).recordMin i =
      ((presentAt YearRecord.tmin h i).map truncQ).foldl min 100 := by
  exact ⟨post_recordMax h i, post_recordMin h i⟩

/-- C5 witness: a single record with TMAX 15 and TMIN 5 present at day 0. -/
theorem c5_records_truncated_witness :
    (0 < 365 ∧ ∀ r ∈ [plainRec], wf365 r) ∧
    ((post_process_data [plainRec]).recordMax 0 =
        ((presentAt YearRecord.tmax [plainRec] 0).map truncQ).foldl max (-100) ∧
      (post_process_data [plainRec]).recordMin 0 =
        ((presentAt YearRecord.tmin [plainRec] 0).map truncQ).foldl min 100) :=
  ⟨⟨by decide, by decide⟩, c5_records_truncated [plainRec] 0 (by decide) (by decide)⟩

/-- C6: aggregation output depends only on the multiset of records: permuting the
history leaves every summary field unchanged at every day. -/
theorem c6_aggregate_perm_invariant (h h2 : List YearRecord) (hp : h.Perm h2) :
    post_process_data h = post_process_data h2 := by
  have hlen : h.length = h2.length := hp.length_eq
  have hsum : ∀ (f : YearRecord → List (Option ℚ)) (i : ℕ), sumAt f h i = sumAt f h2 i :=
    fun f i => List.Perm.sum_eq (hp.map _)
  have hcnt : ∀ (f : YearRecord → List (Option ℚ)) (i : ℕ),
      noneCountAt f h i = noneCountAt f h2 i :=
    fun f i => hp.countP_eq _
  have hmax : ∀ (i : ℕ) (a : ℤ),
      ((presentAt YearRecord.tmax h i).map truncQ).foldl max a =
        ((presentAt YearRecord.tmax h2 i).map truncQ).foldl max a := by
    intro i a
    exact List.Perm.foldl_eq' ((hp.filterMap _).map _)
      (fun x _ y _ z => by rw [max_assoc, max_assoc, max_comm x y]) a
  have hmin : ∀ (i : ℕ) (a : ℤ),
      ((presentAt YearRecord.tmin h i).map truncQ).foldl min a =
        ((presentAt YearRecord.tmin h2 i).map truncQ).foldl min a := by
    intro i a
    exact List.Perm.foldl_eq' ((hp.filterMap _).map _)
      (fun x _ y _ z => by rw [min_assoc, min_assoc, min_comm x y]) a
  ext i
  · rw [post_tmax, post_tmax, hsum, hcnt, hlen]
  · rw [post_tmed, post_tmed, hsum, hcnt, hlen]
  · rw [post_tmin, post_tmin, hsum, hcnt, hlen]
  · rw [post_prec, post_prec, hsum, hcnt, hlen]
  · rw [post_recordMax, post_recordMax]
    exact hmax i (-100)
  · rw [post_recordMin, post_recordMin]
    exact hmin i 100

/-- C6 witness: swapping a two-record history. -/
theorem c6_aggregate_perm_invariant_witness :
    post_process_data [day10Rec, truncRec] = post_process_data [truncRec, day10Rec] :=
  c6_aggregate_perm_invariant [day10Rec, truncRec] [truncRec, day10Rec]
    (List.Perm.swap truncRec day10Rec [])

/-- A field parse that succeeds was given a string and returns its recovered optional
float value. -/
theorem parseField_ok (v : Option String) (q : Option ℚ)
    (h : parseField v = Except.ok q) : v.isSome = true ∧ q = pyFloatOpt v := by
  cases v with
  | none => simp [parseField] at h
  | some s =>
    simp only [parseField, Except.ok.injEq] at h
    simp [pyFloatOpt, h]

/-- Kept entries: the number of entries not dated February 29. -/
theorem countP_notFeb29 (l : List RawEntry) :
    l.countP notFeb29 = l.length - feb29Count l := by
  induction l with
  | nil => simp [feb29Count]
  | cons e rest ih =>
    have hle : feb29Count rest ≤ rest.length := List.countP_le_length _
    by_cases hd : isFeb29 e = true <;>
      simp [feb29Count, List.countP_cons, notFeb29, hd] at ih hle ⊢ <;> omega

/-- Successful accumulation yields, for every quantity, the parsed values of exactly
the entries whose calendar date is not February 29, in payload order. -/
theorem collectSeries_ok (l : List RawEntry)
    (t : List (Option ℚ) × List (Option ℚ) × List (Option ℚ) × List (Option ℚ))
    (hok : collectSeries l = Except.ok t) :
    t.1 = (l.filter notFeb29).map (fun e => pyFloatOpt e.tmax) ∧
    t.2.1 = (l.filter notFeb29).map (fun e => pyFloatOpt e.tmed) ∧
    t.2.2.1 = (l.filter notFeb29).map (fun e => pyFloatOpt e.tmin) ∧
    t.2.2.2 = (l.filter notFeb29).map (fun e => pyFloatOpt e.prec) := by
  induction l generalizing t with
  | nil =>
    simp only [collectSeries, Except.ok.injEq] at hok
    simp [← hok]
  | cons e rest ih =>
    unfold collectSeries at hok
    split at hok
    · rename_i hd
      have hf : notFeb29 e = false := by simp [notFeb29, isFeb29, hd]
      simpa [List.filter_cons, hf] using ih t hok
    · rename_i hd
      have hf : notFeb29 e = true := by simp [notFeb29, isFeb29, hd]
      split at hok <;> try exact Except.noConfusion hok
      rename_i a b c d t2 hta htb htc htd hcs
      obtain ⟨h1, h2, h3, h4⟩ := ih t2 hcs
      obtain ⟨-, ha⟩ := parseField_ok _ _ hta
      obtain ⟨-, hb⟩ := parseField_ok _ _ htb
      obtain ⟨-, hc2⟩ := parseField_ok _ _ htc
      obtain ⟨-, hd2⟩ := parseField_ok _ _ htd
      cases hok
      simp [List.filter_cons, hf, h1, h2, h3, h4, ha, hb, hc2, hd2]

/-- A successful get_current_data call is fully characterized: the metadata flags come
from the raw payload length and the four series are the parsed values of the entries
not dated February 29. -/
theorem get_current_data_ok (payload : List RawEntry) (y : ℤ) (rec : YearRecord)
    (hok : get_current_data payload y = Except.ok rec) :
    rec.year = y ∧
    rec.completeYear = decide (365 ≤ payload.length) ∧
    rec.leapYear = (payload.length == 366) ∧
    rec.tmax = (payload.filter notFeb29).map (fun e => pyFloatOpt e.tmax) ∧
    rec.tmed = (payload.filter notFeb29).map (fun e => pyFloatOpt e.tmed) ∧
    rec.tmin = (payload.filter notFeb29).map (fun e => pyFloatOpt e.tmin) ∧
    rec.prec = (payload.filter notFeb29).map (fun e => pyFloatOpt e.prec) := by
  unfold get_current_data at hok
  split at hok
  · exact absurd hok (by simp)
  · rename_i t hcs
    obtain ⟨h1, h2, h3, h4⟩ := collectSeries_ok payload t hcs
    cases hok
    simp [h1, h2, h3, h4]

/-- C3: a raw payload of length 365 with no February 29 entry, or of length 366 with
exactly one, normalizes to a record whose four series all have length exactly 365. -/
theorem c3_series_length_365 (payload : List RawEntry) (y : ℤ) (rec : YearRecord)
    (hshape : (payload.length = 365 ∧ feb29Count payload = 0) ∨
      (payload.length = 366 ∧ feb29Count payload = 1))
    (hok : get_current_data payload y = Except.ok rec) :
    rec.tmax.length = 365 ∧ rec.tmed.length = 365 ∧
    rec.tmin.length = 365 ∧ rec.prec.length = 365 := by
  obtain ⟨-, -, -, h1, h2, h3, h4⟩ := get_current_data_ok payload y rec hok
  have hflen : (payload.filter notFeb29).length = payload.length - feb29Count payload := by
    rw [← List.countP_eq_length_filter]
    exact countP_notFeb29 payload
  rcases hshape with ⟨hl, hc⟩ | ⟨hl, hc⟩ <;>
    simp [h1, h2, h3, h4, hflen, hl, hc]

/-- C3 witness: the blank 365-entry payload. -/
theorem c3_series_length_365_witness :
    (payload365.length = 365 ∧ feb29Count payload365 = 0) ∧
    get_current_data payload365 1970 = Except.ok rec365 ∧
    (rec365.tmax.length = 365 ∧ rec365.tmed.length = 365 ∧
      rec365.tmin.length = 365 ∧ rec365.prec.length = 365) :=
  ⟨⟨by decide, by decide⟩, rfl,
    c3_series_length_365 payload365 1970 rec365 (Or.inl ⟨by decide, by decide⟩) rfl⟩

/-- C4: on a calendar-ordered 366-entry leap payload - 59 non-leap-day entries, then
the February 29 entry identified by its parsed calendar date, then March 1 and the
remaining 305 days - the normalizer sets the leap flag, drops exactly the February 29
entry from all four series, and the raw March 1 value lands at canonical index 59. -/
theorem c4_leap_day_dropped_by_date (pre post : List RawEntry) (feb m1 : RawEntry)
    (rest : List RawEntry) (y : ℤ) (rec : YearRecord)
    (hpre : pre.length = 59) (hpost : post.length = 306)
    (hfeb : isFeb29 feb = true)
    (hpre29 : ∀ e ∈ pre, notFeb29 e = true)
    (hpost29 : ∀ e ∈ post, notFeb29 e = true)
    (hm1 : post = m1 :: rest)
    (hok : get_current_data (pre ++ feb :: post) y = Except.ok rec) :
    rec.leapYear = true ∧
    rec.tmax = (pre ++ post).map (fun e => pyFloatOpt e.tmax) ∧
    rec.tmed = (pre ++ post).map (fun e => pyFloatOpt e.tmed) ∧
    rec.tmin = (pre ++ post).map (fun e => pyFloatOpt e.tmin) ∧
    rec.prec = (pre ++ post).map (fun e => pyFloatOpt e.prec) ∧
    dayVal rec.tmax 59 = pyFloatOpt m1.tmax := by
  obtain ⟨-, -, hleap, h1, h2, h3, h4⟩ := get_current_data_ok _ y rec hok
  have hnf : notFeb29 feb = false := by simp [notFeb29, hfeb]
  have hfilter : (pre ++ feb :: post).filter notFeb29 = pre ++ post := by
    rw [List.filter_append, List.filter_cons, hnf]
    simp [List.filter_eq_self.mpr hpre29, List.filter_eq_self.mpr hpost29]
  have hlen : (pre ++ feb :: post).length = 366 := by
    simp [hpre, hpost]
  refine ⟨?_, by rw [h1, hfilter], by rw [h2, hfilter], by rw [h3, hfilter],
    by rw [h4, hfilter], ?_⟩
  · rw [hleap, hlen]
    rfl
  · rw [h1, hfilter, hm1]
    unfold dayVal
    rw [List.map_append, List.getD_append_right]
    · simp [hpre]
    · simp [hpre]

/-- C4 witness: the calendar-ordered 366-entry payload with its February 29 entry at
raw position 59 and March 1 at raw position 60. -/
theorem c4_leap_day_dropped_by_date_witness :
    get_current_data payload366 1972 = Except.ok rec366 ∧
    (rec366.leapYear = true ∧
      rec366.tmax = ((List.replicate 59 blankEntry ++
        mar1Entry :: List.replicate 305 blankEntry).map (fun e => pyFloatOpt e.tmax)) ∧
      rec366.tmed = ((List.replicate 59 blankEntry ++
        mar1Entry :: List.replicate 305 blankEntry).map (fun e => pyFloatOpt e.tmed)) ∧
      rec366.tmin = ((List.replicate 59 blankEntry ++
        mar1Entry :: List.replicate 305 blankEntry).map (fun e => pyFloatOpt e.tmin)) ∧
      rec366.prec = ((List.replicate 59 blankEntry ++
        mar1Entry :: List.replicate 305 blankEntry).map (fun e => pyFloatOpt e.prec)) ∧
      dayVal rec366.tmax 59 = pyFloatOpt mar1Entry.tmax) :=
  have hok : get_current_data
      (List.replicate 59 blankEntry ++
        feb29Entry :: mar1Entry :: List.replicate 305 blankEntry) 1972 =
      Except.ok rec366 := by rfl
  ⟨hok,
    c4_leap_day_dropped_by_date (List.replicate 59 blankEntry)
      (mar1Entry :: List.replicate 305 blankEntry) feb29Entry mar1Entry
      (List.replicate 305 blankEntry) 1972 rec366
      (by decide) (by decide) (by decide) (by decide) (by decide) rfl hok⟩

/-- Accumulation never fails on a payload without null fields: every string value
either parses or is recovered as None. -/
theorem collectSeries_total (payload : List RawEntry)
    (hnn : ∀ e ∈ payload, e.tmax.isSome = true ∧ e.tmed.isSome = true ∧
      e.tmin.isSome = true ∧ e.prec.isSome = true) :
    ∃ t, collectSeries payload = Except.ok t := by
  induction payload with
  | nil => exact ⟨([], [], [], []), rfl⟩
  | cons e rest ih =>
    have he := hnn e (List.mem_cons_self e rest)
    have hrest : ∀ x ∈ rest, x.tmax.isSome = true ∧ x.tmed.isSome = true ∧
        x.tmin.isSome = true ∧ x.prec.isSome = true :=
      fun x hx => hnn x (List.mem_cons_of_mem e hx)
    obtain ⟨t, ht⟩ := ih hrest
    by_cases hd : e.month = 2 ∧ e.day = 29
    · refine ⟨t, ?_⟩
      unfold collectSeries
      rw [if_pos hd]
      exact ht
    · obtain ⟨h1, h2, h3, h4⟩ := he
      obtain ⟨s1, hs1⟩ := Option.isSome_iff_exists.mp h1
      obtain ⟨s2, hs2⟩ := Option.isSome_iff_exists.mp h2
      obtain ⟨s3, hs3⟩ := Option.isSome_iff_exists.mp h3
      obtain ⟨s4, hs4⟩ := Option.isSome_iff_exists.mp h4
      refine ⟨(parseDecimal (commaToDot s1) :: t.1, parseDecimal (commaToDot s2) :: t.2.1,
        parseDecimal (commaToDot s3) :: t.2.2.1, parseDecimal (commaToDot s4) :: t.2.2.2), ?_⟩
      unfold collectSeries
      rw [if_neg hd, hs1, hs2, hs3, hs4, ht]
      simp [parseField]

/-- C7 counterexample: the claim fails on the code. A JSON null field raises
AttributeError at the .replace call inside get_current_data, which except ValueError
does not catch, so normalization of the enclosing record fails instead of recording
the value as absent. -/
theorem c7_null_field_raises :
    nullEntry.tmax = none ∧
    get_current_data [nullEntry] 2024 = Except.error PyError.attributeError :=
  ⟨rfl, rfl⟩

/-- C7 as amended: parsing replaces the decimal comma with a point and reads a float,
"23,4" giving the present value 23.4 and the unparseable "" being recorded as absent;
normalization never raises on any payload whose fields are all strings, but a null or
missing field does abort it (see the counterexample). -/
theorem c7_string_parse_recovered (payload : List RawEntry) (y : ℤ)
    (hnn : ∀ e ∈ payload, e.tmax.isSome = true ∧ e.tmed.isSome = true ∧
      e.tmin.isSome = true ∧ e.prec.isSome = true) :
    pyFloatOpt (some "23,4") = some (117 / 5) ∧
    pyFloatOpt (some "") = none ∧
    isOkE (get_current_data payload y) = true := by
  refine ⟨?_, rfl, ?_⟩
  · have h1 : pyFloatOpt (some "23,4") =
        some ((23 : ℚ) + (4 : ℚ) / (10 : ℚ) ^ (1 : ℕ)) := rfl
    rw [h1]
    norm_num
  · obtain ⟨t, ht⟩ := collectSeries_total payload hnn
    unfold get_current_data
    rw [ht]
    rfl

/-- C7 witness: a one-entry payload whose fields are all strings. -/
theorem c7_string_parse_recovered_witness :
    pyFloatOpt (some "23,4") = some (117 / 5) ∧
    pyFloatOpt (some "") = none ∧
    isOkE (get_current_data [blankEntry] 2024) = true :=
  c7_string_parse_recovered [blankEntry] 2024 (by decide)

/-- C8 counterexample: the claim fails on the code. A payload of 365 entries whose
values are all unparseable empty strings normalizes with every daily value absent, yet
the record is marked complete, because get_current_data derives completeness from the
raw payload length alone. -/
theorem c8_incomplete_marked_complete :
    get_current_data payload365 1970 = Except.ok rec365 ∧
    rec365.completeYear = true ∧
    dayVal rec365.tmax 0 = none ∧
    rec365.tmax.length = 365 :=
  ⟨rfl, rfl, rfl, by decide⟩

/-- C8 as amended: the completeness flag of a record produced by get_current_data is
true exactly when the raw payload has at least 365 entries; absent values after
parsing do not influence it. -/
theorem c8_complete_iff_length (payload : List RawEntry) (y : ℤ) (rec : YearRecord)
    (hok : get_current_data payload y = Except.ok rec) :
    rec.completeYear = true ↔ 365 ≤ payload.length := by
  obtain ⟨-, hcomp, -, -, -, -, -⟩ := get_current_data_ok payload y rec hok
  rw [hcomp]
  simp

/-- C8 witness: the blank 365-entry payload again. -/
theorem c8_complete_iff_length_witness :
    rec365.completeYear = true ↔ 365 ≤ payload365.length :=
  c8_complete_iff_length payload365 1970 rec365 rfl

/-- C9 counterexample: the claim fails on the code. In the rebuild loop of
download_data.py a year whose first fetch answers with estado different from 200 is
only skipped: the loop continues and the output file is written after the loop, so the
persisted history is the non-empty list holding the other year - a partial persisted
history from a rebuild with a failed year fetch. -/
theorem c9_failed_year_skipped :
    dd_main_loop [(1952, FetchOutcome.apiError), (1953, FetchOutcome.fetched [blankEntry])] =
      Except.ok [dd_normalize [blankEntry] 1953] ∧
    [dd_normalize [blankEntry] 1953] ≠ ([] : List DDRecord) :=
  ⟨rfl, by simp⟩

/-- C9 as amended: when no fetch fails at the requests level (which would crash the
script before any write), the rebuild loop persists exactly the successfully fetched
years, skipping every year whose fetch answered with a non-200 estado - so a partial
history is persisted rather than the rebuild aborting. -/
theorem c9_partial_history_persisted (ys : List (ℤ × FetchOutcome))
    (hh : ∀ p ∈ ys, p.2 ≠ FetchOutcome.httpFail) :
    dd_main_loop ys =
      Except.ok (ys.filterMap (fun p =>
        match p.2 with
        | FetchOutcome.fetched payload => some (dd_normalize payload p.1)
        | _ => none)) := by
  induction ys with
  | nil => rfl
  | cons p rest ih =>
    obtain ⟨y, o⟩ := p
    have hrest : ∀ q ∈ rest, q.2 ≠ FetchOutcome.httpFail :=
      fun q hq => hh q (List.mem_cons_of_mem _ hq)
    have hp : (y, o).2 ≠ FetchOutcome.httpFail := hh (y, o) (List.mem_cons_self _ _)
    cases o with
    | httpFail => exact absurd rfl hp
    | apiError => simp [dd_main_loop, List.filterMap_cons, ih hrest]
    | fetched payload => simp [dd_main_loop, List.filterMap_cons, ih hrest]

/-- C9 witness: a one-year range whose only fetch fails with a non-200 estado. -/
theorem c9_partial_history_persisted_witness :
    dd_main_loop [((2000 : ℤ), FetchOutcome.apiError)] =
      Except.ok ([((2000 : ℤ), FetchOutcome.apiError)].filterMap (fun p =>
        match p.2 with
        | FetchOutcome.fetched payload => some (dd_normalize payload p.1)
        | _ => none)) :=
  c9_partial_history_persisted [((2000 : ℤ), FetchOutcome.apiError)] (by decide)

/-- C10: the metadata of a record assembled by the two-half-year path comes from the
first half-year payload alone, so whenever both halves have fewer than 365 entries the
returned record is marked non-leap and incomplete regardless of the actual year. -/
theorem c10_flags_from_first_half (half1 half2 : List RawEntry) (y : ℤ) (rec : YearRecord)
    (hl1 : half1.length < 365) (hl2 : half2.length < 365)
    (hok : download_year_data half1 half2 y = Except.ok rec) :
    rec.leapYear = false ∧ rec.completeYear = false ∧
    rec.leapYear = (half1.length == 366) ∧
    rec.completeYear = decide (365 ≤ half1.length) := by
  unfold download_year_data at hok
  split at hok
  · exact absurd hok (by simp)
  · exact absurd hok (by simp)
  · rename_i fp sp hg1 hg2
    obtain ⟨-, hcomp, hleap, -, -, -, -⟩ := get_current_data_ok half1 y fp hg1
    cases hok
    have hb : (half1.length == 366) = false := beq_eq_false_iff_ne.mpr (by omega)
    have hc : decide (365 ≤ half1.length) = false := decide_eq_false (by omega)
    refine ⟨?_, ?_, ?_, ?_⟩
    · show fp.leapYear = false
      rw [hleap, hb]
    · show fp.completeYear = false
      rw [hcomp, hc]
    · exact hleap
    · exact hcomp

/-- C10 witness: two one-entry half payloads. -/
theorem c10_flags_from_first_half_witness :
    download_year_data [blankEntry] [blankEntry] 1999 = Except.ok recHalf ∧
    (recHalf.leapYear = false ∧ recHalf.completeYear = false ∧
      recHalf.leapYear = (([blankEntry] : List RawEntry).length == 366) ∧
      recHalf.completeYear = decide (365 ≤ ([blankEntry] : List RawEntry).length)) :=
  ⟨rfl,
    c10_flags_from_first_half [blankEntry] [blankEntry] 1999 recHalf
      (by decide) (by decide) rfl⟩

end AEMET
